import Mathlib

/-!
# vtkF3DImguiActor: the overlay adapter

A shallow embedding of `vtkext/private/module/vtkF3DImguiActor.cxx`.

* C++ `float` is an arbitrary carrier `F` with the arithmetic the code uses
  (`+ - * /`, unary minus, `<`); theorems that speak of exact arithmetic take
  `F := ℚ`.  The conversions between `float` and `int` are the fields of `Conv`.
* VTK objects are identified by a `Handle`; a smart pointer is an
  `Option Handle`, `none` being `nullptr`.  Dereferencing a null pointer makes
  the modelled function return `none`.
* Calls into the UI library and the rendering engine are recorded, in program
  order, as a list of `Call`s next to the state they produce.
* `unsigned int` fields of the draw commands are natural numbers; the UI
  library bounds them by the size of its index buffer (an `int`), so their
  conversion to `GLsizei` keeps the value, and strings are texts without an
  embedded terminator, so `c_str()` denotes the whole string.
-/

namespace F3D

/-! ## Data model -/

/-- Identity of an object owned by the rendering engine. -/
abbrev Handle := Nat

/-- Modelled from the spec: `ImVec2` is declared by the UI library; a pair of floats. -/
structure ImVec2 (F : Type) where
  x : F
  y : F
  deriving DecidableEq, Repr

/-- Modelled from the spec: `ImVec4` is declared by the UI library; for a clip
rectangle `(x, y)` is the upper-left and `(z, w)` the lower-right corner. -/
structure ImVec4 (F : Type) where
  x : F
  y : F
  z : F
  w : F
  deriving DecidableEq, Repr

/-- Modelled from the spec: `ImDrawCmd` is declared by the UI library; the
fields read by `RenderDrawData`. -/
structure ImDrawCmd (F : Type) where
  ClipRect : ImVec4 F
  IdxOffset : Nat
  ElemCount : Nat
  deriving DecidableEq, Repr

/-- Modelled from the spec: `ImDrawList` is declared by the UI library; the
command buffer and the sizes of the vertex and index buffers uploaded for it. -/
structure ImDrawList (F : Type) where
  CmdBuffer : List (ImDrawCmd F)
  VtxBufferSize : Nat
  IdxBufferSize : Nat
  deriving DecidableEq, Repr

/-- Modelled from the spec: `ImDrawData` is declared by the UI library; the
per-frame draw data.  `CmdListsCount` is the length of `CmdLists`. -/
structure ImDrawData (F : Type) where
  CmdLists : List (ImDrawList F)
  DisplayPos : ImVec2 F
  DisplaySize : ImVec2 F
  FramebufferScale : ImVec2 F
  deriving DecidableEq, Repr

/-- The conversions the translation unit relies on: `sizeof(ImDrawIdx)`,
`static_cast<GLint>` / `static_cast<GLsizei>` of a float and
`static_cast<float>` of an int. -/
structure Conv (F : Type) where
  sizeofImDrawIdx : Nat
  toGLint : F → Int
  toFloat : Int → F

/-- Exact arithmetic: floats are rationals, a float is converted to an integer
by truncation toward zero, indices are 16 bit wide. -/
def ratConv : Conv ℚ where
  sizeofImDrawIdx := 2
  toGLint := fun q => Int.tdiv q.num q.den
  toFloat := fun i => (i : ℚ)

/-! ## OpenGL state tracked by the rendering engine -/

/-- The capabilities `RenderDrawData` enables or disables. -/
inductive GLCap where
  | GL_BLEND
  | GL_CULL_FACE
  | GL_DEPTH_TEST
  | GL_STENCIL_TEST
  | GL_SCISSOR_TEST
  deriving DecidableEq, Repr

def GL_ONE : Nat := 1
def GL_TRIANGLES : Nat := 0x0004
def GL_SRC_ALPHA : Nat := 0x0302
def GL_ONE_MINUS_SRC_ALPHA : Nat := 0x0303
def GL_UNSIGNED_SHORT : Nat := 0x1403
def GL_UNSIGNED_INT : Nat := 0x1405
def GL_FUNC_ADD : Nat := 0x8006
def GL_FUNC_SUBTRACT : Nat := 0x800A

/-- Modelled from the spec: the scissor box of the engine's render state. -/
structure ScissorState where
  x : Int
  y : Int
  width : Int
  height : Int
  deriving DecidableEq, Repr

/-- Modelled from the spec: the separate blend function of the engine's render
state, source and destination factors for RGB and for alpha. -/
structure BlendFuncState where
  sfactorRGB : Nat
  dfactorRGB : Nat
  sfactorAlpha : Nat
  dfactorAlpha : Nat
  deriving DecidableEq, Repr

/-- Modelled from the spec: `vtkOpenGLState`, the rendering engine's record of
the OpenGL state, is not part of the sources; the parts `RenderDrawData`
touches. -/
structure vtkOpenGLState where
  Scissor : ScissorState
  BlendFunc : BlendFuncState
  BlendEquation : Nat
  Blend : Bool
  CullFace : Bool
  DepthTest : Bool
  StencilTest : Bool
  ScissorTest : Bool
  deriving DecidableEq, Repr

namespace vtkOpenGLState

/-- Modelled from the spec: read one capability flag (`vtkglGetBooleanv`). -/
def GetEnumState (s : vtkOpenGLState) : GLCap → Bool
  | .GL_BLEND => s.Blend
  | .GL_CULL_FACE => s.CullFace
  | .GL_DEPTH_TEST => s.DepthTest
  | .GL_STENCIL_TEST => s.StencilTest
  | .GL_SCISSOR_TEST => s.ScissorTest

/-- Modelled from the spec: write one capability flag (`SetEnumState`). -/
def SetEnumState (s : vtkOpenGLState) (cap : GLCap) (v : Bool) : vtkOpenGLState :=
  match cap with
  | .GL_BLEND => { s with Blend := v }
  | .GL_CULL_FACE => { s with CullFace := v }
  | .GL_DEPTH_TEST => { s with DepthTest := v }
  | .GL_STENCIL_TEST => { s with StencilTest := v }
  | .GL_SCISSOR_TEST => { s with ScissorTest := v }

/-- Modelled from the spec: `vtkglEnable`. -/
def vtkglEnable (s : vtkOpenGLState) (cap : GLCap) : vtkOpenGLState :=
  s.SetEnumState cap true

/-- Modelled from the spec: `vtkglDisable`. -/
def vtkglDisable (s : vtkOpenGLState) (cap : GLCap) : vtkOpenGLState :=
  s.SetEnumState cap false

/-- Modelled from the spec: `vtkglBlendEquation`. -/
def vtkglBlendEquation (s : vtkOpenGLState) (mode : Nat) : vtkOpenGLState :=
  { s with BlendEquation := mode }

/-- Modelled from the spec: `vtkglBlendFuncSeparate`. -/
def vtkglBlendFuncSeparate (s : vtkOpenGLState) (sRGB dRGB sA dA : Nat) : vtkOpenGLState :=
  { s with BlendFunc := ⟨sRGB, dRGB, sA, dA⟩ }

/-- Modelled from the spec: `vtkglScissor`. -/
def vtkglScissor (s : vtkOpenGLState) (x y width height : Int) : vtkOpenGLState :=
  { s with Scissor := ⟨x, y, width, height⟩ }

end vtkOpenGLState

/-- Modelled from the spec: the render window, as far as the actor reads it:
its size, its OpenGL state and the program its shader cache readies for the
overlay shaders. -/
structure vtkOpenGLRenderWindow where
  Size : Int × Int
  State : vtkOpenGLState
  ShaderProgram : Handle
  deriving DecidableEq, Repr

/-! ## Recorded calls -/

/-- Source of the font added to the atlas in `Initialize`. -/
inductive FontSource where
  | memory
  | file (path : String)
  deriving DecidableEq, Repr

/-- The calls into the UI library and the rendering engine, as they appear in
the source. -/
inductive Call (F : Type) where
  | CreateContext
  | SetCurrentContext
  | AddFont (src : FontSource)
  | FontsBuild
  | GetTexDataAsRGBA32
  | Create2DFromRaw (tex : Handle)
  | SetTexID (tex : Option Handle)
  | GenerateBuffer (buf : Handle)
  | ReadyShaderProgram (prog : Handle)
  | AddAttributeArray (vao : Handle) (name : String)
  | ReleaseGraphicsResources (obj : Handle)
  | FontsClear
  | DestroyContext
  | NewFrame
  | Render
  | Activate (tex : Handle)
  | SetUniform2f (name : String) (v : ImVec2 F)
  | SetUniformi (name : String) (tex : Handle)
  | Bind (obj : Handle)
  | Upload (buf : Handle) (size : Nat)
  | vtkglScissor (x y width height : Int)
  | glDrawElements (mode : Nat) (count : Nat) (type : Nat) (offset : Nat)
  | Release (obj : Handle)
  | Deactivate (tex : Handle)
  deriving DecidableEq, Repr

/-- The five smart pointers of `vtkF3DImguiActor::Internals`. -/
structure Internals where
  FontTexture : Option Handle
  VertexArray : Option Handle
  VertexBuffer : Option Handle
  IndexBuffer : Option Handle
  Program : Option Handle
  deriving DecidableEq, Repr

section Draw

variable {F : Type} [Add F] [Sub F] [Mul F] [Div F] [Neg F] [OfNat F 2]
  [LT F] [DecidableRel (fun a b : F => a < b)]

/-! ## RenderDrawData -/

/-- The `Scale` uniform (lines 146-147). -/
def scale (drawData : ImDrawData F) : ImVec2 F :=
  ⟨2 / drawData.DisplaySize.x, (-2) / drawData.DisplaySize.y⟩

/-- The `Shift` uniform (lines 148-149). -/
def shift (drawData : ImDrawData F) : ImVec2 F :=
  ⟨(-(2 * drawData.DisplayPos.x + drawData.DisplaySize.x)) / drawData.DisplaySize.x,
   (2 * drawData.DisplayPos.y + drawData.DisplaySize.y) / drawData.DisplaySize.y⟩

/-- The upper-left corner of a command's clip rectangle in framebuffer space
(lines 179-180). -/
def clipMin (drawData : ImDrawData F) (cmd : ImDrawCmd F) : ImVec2 F :=
  ⟨(cmd.ClipRect.x - drawData.DisplayPos.x) * drawData.FramebufferScale.x,
   (cmd.ClipRect.y - drawData.DisplayPos.y) * drawData.FramebufferScale.y⟩

/-- The lower-right corner of a command's clip rectangle in framebuffer space
(lines 181-182). -/
def clipMax (drawData : ImDrawData F) (cmd : ImDrawCmd F) : ImVec2 F :=
  ⟨(cmd.ClipRect.z - drawData.DisplayPos.x) * drawData.FramebufferScale.x,
   (cmd.ClipRect.w - drawData.DisplayPos.y) * drawData.FramebufferScale.y⟩

/-- The test of line 183: the projected clip rectangle is neither empty nor
inverted. -/
def clipVisible (drawData : ImDrawData F) (cmd : ImDrawCmd F) : Bool :=
  decide ((clipMin drawData cmd).x < (clipMax drawData cmd).x) &&
  decide ((clipMin drawData cmd).y < (clipMax drawData cmd).y)

/-- The framebuffer height of line 186. -/
def fbHeight (drawData : ImDrawData F) : F :=
  drawData.DisplaySize.y * drawData.FramebufferScale.y

/-- The four arguments of the scissor call of lines 187-189. -/
def scissorArgs (conv : Conv F) (drawData : ImDrawData F) (cmd : ImDrawCmd F) : ScissorState :=
  ⟨conv.toGLint (clipMin drawData cmd).x,
   conv.toGLint (fbHeight drawData - (clipMax drawData cmd).y),
   conv.toGLint ((clipMax drawData cmd).x - (clipMin drawData cmd).x),
   conv.toGLint ((clipMax drawData cmd).y - (clipMin drawData cmd).y)⟩

/-- The index type of line 192. -/
def idxType (conv : Conv F) : Nat :=
  if conv.sizeofImDrawIdx = 2 then GL_UNSIGNED_SHORT else GL_UNSIGNED_INT

/-- The draw call of lines 191-193. -/
def drawCall (conv : Conv F) (cmd : ImDrawCmd F) : Call F :=
  .glDrawElements GL_TRIANGLES cmd.ElemCount (idxType conv) (cmd.IdxOffset * conv.sizeofImDrawIdx)

/-- The scissor call of lines 187-189. -/
def scissorCall (conv : Conv F) (drawData : ImDrawData F) (cmd : ImDrawCmd F) : Call F :=
  let r := scissorArgs conv drawData cmd
  .vtkglScissor r.x r.y r.width r.height

/-- One iteration of the inner loop (lines 176-194). -/
def renderCmd (conv : Conv F) (drawData : ImDrawData F)
    (acc : vtkOpenGLState × List (Call F)) (cmd : ImDrawCmd F) :
    vtkOpenGLState × List (Call F) :=
  if clipVisible drawData cmd then
    let r := scissorArgs conv drawData cmd
    (acc.1.vtkglScissor r.x r.y r.width r.height,
     acc.2 ++ [scissorCall conv drawData cmd, drawCall conv cmd])
  else
    acc

/-- One iteration of the outer loop (lines 167-195): the two uploads, then
the commands of the list in order. -/
def renderCmdList (conv : Conv F) (drawData : ImDrawData F) (vbo ibo : Handle)
    (acc : vtkOpenGLState × List (Call F)) (cmdList : ImDrawList F) :
    vtkOpenGLState × List (Call F) :=
  cmdList.CmdBuffer.foldl (renderCmd conv drawData)
    (acc.1, acc.2 ++ [.Upload vbo cmdList.VtxBufferSize, .Upload ibo cmdList.IdxBufferSize])

/-- `Internals::RenderDrawData` (lines 120-203).  The scoped savers read the
state where they are declared and write it back, last declared first, when
the function returns. -/
def Internals.RenderDrawData (self : Internals) (conv : Conv F)
    (renWin : vtkOpenGLRenderWindow) (drawData : ImDrawData F) :
    Option (vtkOpenGLRenderWindow × List (Call F)) :=
  match self.FontTexture, self.VertexArray, self.VertexBuffer, self.IndexBuffer,
      self.Program with
  | some fontTexture, some vertexArray, some vertexBuffer, some indexBuffer, some program =>
    let state := renWin.State
    let save_scissorbox := state.Scissor
    let save_blendfunc := state.BlendFunc
    let save_blend := state.GetEnumState .GL_BLEND
    let save_cull := state.GetEnumState .GL_CULL_FACE
    let save_depth := state.GetEnumState .GL_DEPTH_TEST
    let save_stencil := state.GetEnumState .GL_STENCIL_TEST
    let save_scissor := state.GetEnumState .GL_SCISSOR_TEST
    let state := state.vtkglEnable .GL_BLEND
    let state := state.vtkglBlendEquation GL_FUNC_ADD
    let state := state.vtkglBlendFuncSeparate
      GL_SRC_ALPHA GL_ONE_MINUS_SRC_ALPHA GL_ONE GL_ONE_MINUS_SRC_ALPHA
    let state := state.vtkglDisable .GL_CULL_FACE
    let state := state.vtkglDisable .GL_DEPTH_TEST
    let state := state.vtkglDisable .GL_STENCIL_TEST
    let state := state.vtkglEnable .GL_SCISSOR_TEST
    let calls : List (Call F) :=
      [.ReadyShaderProgram program, .Activate fontTexture,
       .SetUniform2f "Scale" (scale drawData), .SetUniform2f "Shift" (shift drawData),
       .SetUniformi "Texture" fontTexture,
       .Bind vertexArray, .Bind vertexBuffer, .Bind indexBuffer]
    let r := drawData.CmdLists.foldl
      (renderCmdList conv drawData vertexBuffer indexBuffer) (state, calls)
    let calls := r.2 ++
      [.Release vertexArray, .Release vertexBuffer, .Release indexBuffer,
       .Deactivate fontTexture]
    let state := r.1.SetEnumState .GL_SCISSOR_TEST save_scissor
    let state := state.SetEnumState .GL_STENCIL_TEST save_stencil
    let state := state.SetEnumState .GL_DEPTH_TEST save_depth
    let state := state.SetEnumState .GL_CULL_FACE save_cull
    let state := state.SetEnumState .GL_BLEND save_blend
    let state := state.vtkglBlendFuncSeparate save_blendfunc.sfactorRGB
      save_blendfunc.dfactorRGB save_blendfunc.sfactorAlpha save_blendfunc.dfactorAlpha
    let state := state.vtkglScissor save_scissorbox.x save_scissorbox.y
      save_scissorbox.width save_scissorbox.height
    some ({ renWin with State := state }, calls)
  | _, _, _, _, _ => none

end Draw

/-! ## The actor and the UI-library context -/

/-- Modelled from the spec: the UI library's context, as far as the actor
reads or writes it.  `DisplaySize` is `none` until the actor assigns it, a
`TexID` of 0 is `none`. -/
structure ImGuiContext (F : Type) where
  DisplaySize : Option (ImVec2 F)
  TexID : Option Handle
  Fonts : List FontSource
  FontsBuilt : Bool
  BackendRendererName : Option String
  FrameCount : Nat
  deriving DecidableEq, Repr

/-- The actor together with the two pieces of process-wide state its member
functions read: `GImGui`, the UI library's current context
(`ImGui::GetCurrentContext()`), and `nextHandle`, the identity the next
object created with `New()` receives. -/
structure vtkF3DImguiActor (F : Type) where
  Pimpl : Internals
  FontFile : String
  GImGui : Option (ImGuiContext F)
  nextHandle : Handle
  deriving DecidableEq, Repr

section Actor

variable {F : Type}

/-- The constructor (lines 234-237): every smart pointer of `Internals` is null. -/
def vtkF3DImguiActor.new (fontFile : String) (GImGui : Option (ImGuiContext F))
    (nextHandle : Handle) : vtkF3DImguiActor F :=
  { Pimpl := ⟨none, none, none, none, none⟩, FontFile := fontFile, GImGui := GImGui,
    nextHandle := nextHandle }

/-- `Internals::Initialize` (lines 32-82).  Returns `none` when `ImGui::GetIO()`
is reached without a current context. -/
def Internals.Initialize (a : vtkF3DImguiActor F) (renWin : vtkOpenGLRenderWindow) :
    Option (vtkF3DImguiActor F × List (Call F)) :=
  match a.Pimpl.FontTexture with
  | some _ => some (a, [])
  | none =>
    match a.GImGui with
    | none => none
    | some io =>
      let fontTexture := a.nextHandle
      let vertexBuffer := a.nextHandle + 1
      let indexBuffer := a.nextHandle + 2
      let program := renWin.ShaderProgram
      let vertexArray := a.nextHandle + 3
      some ({ a with
                Pimpl := ⟨some fontTexture, some vertexArray, some vertexBuffer,
                          some indexBuffer, some program⟩
                GImGui := some { io with TexID := some fontTexture }
                nextHandle := a.nextHandle + 4 },
            [.GetTexDataAsRGBA32, .Create2DFromRaw fontTexture, .SetTexID (some fontTexture),
             .GenerateBuffer vertexBuffer, .GenerateBuffer indexBuffer,
             .ReadyShaderProgram program, .Bind vertexArray,
             .AddAttributeArray vertexArray "Position", .AddAttributeArray vertexArray "UV",
             .AddAttributeArray vertexArray "Color"])

/-- `Internals::Release` (lines 84-118). -/
def Internals.Release (a : vtkF3DImguiActor F) : vtkF3DImguiActor F × List (Call F) :=
  match a.GImGui with
  | none => (a, [])
  | some _ =>
    let p := a.Pimpl
    let r1 : Internals × List (Call F) :=
      match p.FontTexture with
      | some tex => ({ p with FontTexture := none }, [.SetTexID none, .ReleaseGraphicsResources tex])
      | none => (p, [])
    let p := r1.1
    let p := if p.VertexBuffer.isSome then { p with VertexBuffer := none } else p
    let p := if p.IndexBuffer.isSome then { p with IndexBuffer := none } else p
    let r2 : Internals × List (Call F) :=
      match p.Program with
      | some prog => ({ p with Program := none }, [.ReleaseGraphicsResources prog])
      | none => (p, [])
    ({ a with Pimpl := r2.1, GImGui := none }, r1.2 ++ r2.2 ++ [.FontsClear, .DestroyContext])

/-- `vtkF3DImguiActor::ReleaseGraphicsResources` (lines 280-285); the
superclass holds none of the modelled state. -/
def vtkF3DImguiActor.ReleaseGraphicsResources (a : vtkF3DImguiActor F)
    (_w : vtkOpenGLRenderWindow) : vtkF3DImguiActor F × List (Call F) :=
  Internals.Release a

/-- `vtkF3DImguiActor::Initialize` (lines 240-277): release what exists, then
create a context, make it current, add the font and build the atlas. -/
def vtkF3DImguiActor.Initialize (a : vtkF3DImguiActor F) (renWin : vtkOpenGLRenderWindow) :
    vtkF3DImguiActor F × List (Call F) :=
  let r := a.ReleaseGraphicsResources renWin
  let src := if r.1.FontFile.isEmpty then FontSource.memory else FontSource.file r.1.FontFile
  let ctx : ImGuiContext F :=
    { DisplaySize := none, TexID := none, Fonts := [src], FontsBuilt := true,
      BackendRendererName := some "F3D/VTK", FrameCount := 0 }
  ({ r.1 with GImGui := some ctx },
   r.2 ++ [.CreateContext, .SetCurrentContext, .AddFont src, .FontsBuild])

/-- `vtkF3DImguiActor::StartFrame` (lines 435-450). -/
def vtkF3DImguiActor.StartFrame (a : vtkF3DImguiActor F) (conv : Conv F)
    (renWin : vtkOpenGLRenderWindow) : Option (vtkF3DImguiActor F × List (Call F)) :=
  let r1 := if a.GImGui.isNone then a.Initialize renWin else (a, [])
  match r1.1.GImGui with
  | none => none
  | some io =>
    let a2 := { r1.1 with
      GImGui := some { io with
        DisplaySize := some ⟨conv.toFloat renWin.Size.1, conv.toFloat renWin.Size.2⟩ } }
    match Internals.Initialize a2 renWin with
    | none => none
    | some r3 =>
      match r3.1.GImGui with
      | none => none
      | some io3 =>
        some ({ r3.1 with GImGui := some { io3 with FrameCount := io3.FrameCount + 1 } },
              r1.2 ++ r3.2 ++ [.NewFrame])

end Actor

section ActorDraw

variable {F : Type} [Add F] [Sub F] [Mul F] [Div F] [Neg F] [OfNat F 2]
  [LT F] [DecidableRel (fun a b : F => a < b)]

/-- `vtkF3DImguiActor::EndFrame` (lines 453-457); `drawData` is what
`ImGui::GetDrawData()` returns after `ImGui::Render()`. -/
def vtkF3DImguiActor.EndFrame (a : vtkF3DImguiActor F) (conv : Conv F)
    (renWin : vtkOpenGLRenderWindow) (drawData : ImDrawData F) :
    Option (vtkF3DImguiActor F × vtkOpenGLRenderWindow × List (Call F)) :=
  match a.GImGui with
  | none => none
  | some _ =>
    match a.Pimpl.RenderDrawData conv renWin drawData with
    | none => none
    | some r => some (a, r.1, Call.Render :: r.2)

/-- The states an actor goes through: from the constructor, by any sequence
of `Initialize`, `StartFrame`, `EndFrame` and `ReleaseGraphicsResources`. -/
inductive Reachable : vtkF3DImguiActor F → Prop where
  | new (fontFile : String) (ctx : Option (ImGuiContext F)) (nextHandle : Handle) :
      Reachable (vtkF3DImguiActor.new fontFile ctx nextHandle)
  | Initialize {a : vtkF3DImguiActor F} (renWin : vtkOpenGLRenderWindow) :
      Reachable a → Reachable (a.Initialize renWin).1
  | StartFrame {a : vtkF3DImguiActor F} (conv : Conv F) (renWin : vtkOpenGLRenderWindow)
      (r : vtkF3DImguiActor F × List (Call F)) :
      Reachable a → a.StartFrame conv renWin = some r → Reachable r.1
  | EndFrame {a : vtkF3DImguiActor F} (conv : Conv F) (renWin : vtkOpenGLRenderWindow)
      (drawData : ImDrawData F)
      (r : vtkF3DImguiActor F × vtkOpenGLRenderWindow × List (Call F)) :
      Reachable a → a.EndFrame conv renWin drawData = some r → Reachable r.1
  | ReleaseGraphicsResources {a : vtkF3DImguiActor F} (w : vtkOpenGLRenderWindow) :
      Reachable a → Reachable (a.ReleaseGraphicsResources w).1

end ActorDraw

/-- The four handles `Internals::Release` resets are all null. -/
def Internals.released (p : Internals) : Prop :=
  p.FontTexture = none ∧ p.VertexBuffer = none ∧ p.IndexBuffer = none ∧ p.Program = none

instance (p : Internals) : Decidable p.released := by
  unfold Internals.released; infer_instance

/-- The five handles `Internals::Initialize` creates all exist. -/
def Internals.ready (p : Internals) : Prop :=
  p.FontTexture ≠ none ∧ p.VertexArray ≠ none ∧ p.VertexBuffer ≠ none ∧
  p.IndexBuffer ≠ none ∧ p.Program ≠ none

instance (p : Internals) : Decidable p.ready := by
  unfold Internals.ready; infer_instance

/-- The atlas texture id registered in the current context, if any. -/
def vtkF3DImguiActor.atlasTexID {F : Type} (a : vtkF3DImguiActor F) : Option Handle :=
  a.GImGui.bind (fun io => io.TexID)

/-- A font texture never outlives its registration: when the font texture
exists, a context is current, it has that texture as atlas texture id, and the
other four objects exist. -/
def vtkF3DImguiActor.consistent {F : Type} (a : vtkF3DImguiActor F) : Prop :=
  ∀ tex, a.Pimpl.FontTexture = some tex →
    a.atlasTexID = some tex ∧ a.Pimpl.ready

/-! ## RenderCheatSheet -/

/-- Modelled from the spec: the style values `RenderCheatSheet` reads from the
UI library (`ImGui::GetStyle()`). -/
structure ImGuiStyle (F : Type) where
  WindowPadding : ImVec2 F
  ScrollbarSize : F

/-- One entry of a cheat-sheet group: binding, description, current value. -/
abbrev CheatSheetEntry := String × String × String

/-- The cheat sheet: named groups of entries. -/
abbrev CheatSheet := List (String × List CheatSheetEntry)

/-- Modelled from the spec: the UI library formats its text like `printf`;
every `%s` of the format is replaced by the next argument, any other
character is copied. -/
def formatV : List Char → List String → List Char
  | '%' :: 's' :: rest, arg :: args => arg.data ++ formatV rest args
  | c :: rest, args => c :: formatV rest args
  | [], _ => []

/-- The string `ImGui::Text(fmt, args...)` displays. -/
def formatText (fmt : String) (args : List String) : String :=
  String.mk (formatV fmt.data args)

/-- The string whose size is measured for one entry (lines 348-355). -/
def measuredLine (e : CheatSheetEntry) : String :=
  let line := e.1
  let line := line ++ ": "
  let line := line ++ e.2.1
  if !e.2.2.isEmpty then line ++ (" [" ++ e.2.2 ++ "]") else line

/-- The string displayed for one entry (lines 377-384). -/
def displayedLine (e : CheatSheetEntry) : String :=
  if !e.2.2.isEmpty then
    formatText "%s: %s [%s]" [e.1, e.2.1, e.2.2]
  else
    formatText "%s: %s" [e.1, e.2.1]

/-- What `RenderCheatSheet` hands to the UI library for its window. -/
inductive Widget (F : Type) where
  | SetNextWindowSize (size : ImVec2 F)
  | SetNextWindowPos (pos : ImVec2 F)
  | Begin (name : String)
  | SeparatorText (label : String)
  | Text (text : String)
  | End
  deriving DecidableEq, Repr

section CheatSheetDefs

variable {F : Type} [Add F] [Sub F] [Mul F] [OfNat F 0] [OfNat F 2] [OfNat F 5]
  [LT F] [DecidableRel (fun a b : F => a < b)]

/-- The value of `std::max(a, b)`. -/
def stdMax (a b : F) : F := if a < b then b else a

/-- The loop of lines 343-359: the running maximum of the measured widths,
starting from 0. -/
def maxLineWidth (calcTextSize : String → ImVec2 F) (cheatSheet : CheatSheet) : F :=
  cheatSheet.foldl
    (fun winWidth group =>
      group.2.foldl (fun winWidth e => stdMax winWidth (calcTextSize (measuredLine e)).x)
        winWidth)
    0

/-- The window width of line 360. -/
def cheatSheetWidth (calcTextSize : String → ImVec2 F) (style : ImGuiStyle F)
    (cheatSheet : CheatSheet) : F :=
  maxLineWidth calcTextSize cheatSheet + (2 * style.WindowPadding.x + style.ScrollbarSize)

/-- `SetupNextWindow` (lines 214-228). -/
def SetupNextWindow (position size : Option (ImVec2 F)) : List (Widget F) :=
  (match size with
   | some s => [Widget.SetNextWindowSize s]
   | none => []) ++
  (match position with
   | some p => [Widget.SetNextWindowPos p]
   | none => [])

/-- `vtkF3DImguiActor::RenderCheatSheet` (lines 336-389); `workSizeY` is the
height of the main viewport's work area. -/
def RenderCheatSheet (calcTextSize : String → ImVec2 F) (style : ImGuiStyle F)
    (workSizeY : F) (cheatSheet : CheatSheet) : List (Widget F) :=
  let marginLeft : F := 5
  let marginTopBottom : F := 5
  let winWidth := cheatSheetWidth calcTextSize style cheatSheet
  SetupNextWindow (some ⟨marginLeft, marginTopBottom⟩)
      (some ⟨winWidth, workSizeY - 2 * marginTopBottom⟩) ++
    [Widget.Begin "CheatSheet"] ++
    cheatSheet.flatMap
      (fun group => Widget.SeparatorText group.1 :: group.2.map (fun e => Widget.Text (displayedLine e))) ++
    [Widget.End]

end CheatSheetDefs

/-- Every entry of every group, in the order the loops visit them. -/
def allEntries (cheatSheet : CheatSheet) : List CheatSheetEntry :=
  cheatSheet.flatMap (fun group => group.2)

/-! ## Reading the recorded calls -/

section Reading

variable {F : Type} [Add F] [Sub F] [Mul F] [Div F] [Neg F] [OfNat F 2]
  [LT F] [DecidableRel (fun a b : F => a < b)]

/-- A recorded call is a scissor call or an indexed draw call. -/
def Call.isScissorOrDraw : Call F → Bool
  | .vtkglScissor _ _ _ _ => true
  | .glDrawElements _ _ _ _ => true
  | _ => false

/-- A recorded call is an indexed draw call. -/
def Call.isDraw : Call F → Bool
  | .glDrawElements _ _ _ _ => true
  | _ => false

/-- The name and value of a recorded two-float uniform. -/
def Call.uniform2f? : Call F → Option (String × ImVec2 F)
  | .SetUniform2f name v => some (name, v)
  | _ => none

/-- The draw commands of the draw data, in command-list order and then in
command order within each list. -/
def allCmds (drawData : ImDrawData F) : List (ImDrawCmd F) :=
  drawData.CmdLists.flatMap (fun cmdList => cmdList.CmdBuffer)

/-- The calls one command contributes to the record. -/
def cmdCalls (conv : Conv F) (drawData : ImDrawData F) (cmd : ImDrawCmd F) : List (Call F) :=
  if clipVisible drawData cmd then [scissorCall conv drawData cmd, drawCall conv cmd] else []

end Reading

/-! ## Inputs used to evaluate the model -/

/-- An OpenGL state: blending subtracts, everything but blending disabled. -/
def sampleState : vtkOpenGLState :=
  { Scissor := ⟨0, 0, 800, 600⟩, BlendFunc := ⟨GL_ONE, GL_ONE, GL_ONE, GL_ONE⟩,
    BlendEquation := GL_FUNC_SUBTRACT, Blend := false, CullFace := true, DepthTest := true,
    StencilTest := false, ScissorTest := false }

/-- A render window of 800 by 600 pixels holding `sampleState`. -/
def sampleWindow : vtkOpenGLRenderWindow :=
  { Size := (800, 600), State := sampleState, ShaderProgram := 7 }

/-- The handles an initialised actor holds. -/
def sampleInternals : Internals :=
  { FontTexture := some 0, VertexArray := some 3, VertexBuffer := some 1,
    IndexBuffer := some 2, Program := some 7 }

/-- Draw data of an 800 by 600 display with one list of two commands, the
second one with an empty clip rectangle. -/
def sampleDrawData : ImDrawData ℚ :=
  { CmdLists := [{ CmdBuffer := [⟨⟨10, 20, 110, 70⟩, 0, 6⟩, ⟨⟨5, 5, 5, 9⟩, 6, 3⟩],
                   VtxBufferSize := 8, IdxBufferSize := 9 }],
    DisplayPos := ⟨0, 0⟩, DisplaySize := ⟨800, 600⟩, FramebufferScale := ⟨1, 1⟩ }

/-- The context an initialised actor has made current. -/
def sampleContext : ImGuiContext ℚ :=
  { DisplaySize := some ⟨800, 600⟩, TexID := some 0, Fonts := [FontSource.memory],
    FontsBuilt := true, BackendRendererName := some "F3D/VTK", FrameCount := 1 }

/-- An initialised actor: a context is current and the five objects exist. -/
def liveActor : vtkF3DImguiActor ℚ :=
  { Pimpl := sampleInternals, FontFile := "", GImGui := some sampleContext, nextHandle := 4 }

/-- An actor that still holds its five objects while no context is current. -/
def staleActor : vtkF3DImguiActor ℚ :=
  { Pimpl := sampleInternals, FontFile := "", GImGui := none, nextHandle := 4 }

/-- A recorded call creates the UI-library context. -/
def Call.isContextInit {F : Type} : Call F → Bool
  | .CreateContext => true
  | _ => false

/-- A recorded call builds the font atlas texture. -/
def Call.isAtlasBuild {F : Type} : Call F → Bool
  | .Create2DFromRaw _ => true
  | _ => false

/-- A recorded call begins a new frame. -/
def Call.isNewFrame {F : Type} : Call F → Bool
  | .NewFrame => true
  | _ => false

/-- The text of a text widget. -/
def Widget.text? {F : Type} : Widget F → Option String
  | .Text t => some t
  | _ => none

/-- A measuring function for the witnesses: a text is as wide as it has
characters. -/
def sampleCalcTextSize (s : String) : ImVec2 ℚ := ⟨(s.length : ℚ), 18⟩

/-- The style `Initialize` sets up: a padding of 10, with the library's
scrollbar size of 14. -/
def sampleStyle : ImGuiStyle ℚ := { WindowPadding := ⟨10, 10⟩, ScrollbarSize := 14 }

/-- A cheat sheet with two groups and an entry without a value. -/
def sampleCheatSheet : CheatSheet :=
  [("Scene", [("W", "Cycle animation", "none"), ("H", "Cheat sheet", "")]),
   ("Camera", [("5", "Toggle projection", "ON")])]

/-! ## RenderDrawData: state -/

section LoopState

variable {F : Type} [Sub F] [Mul F] [LT F] [DecidableRel (fun a b : F => a < b)]

/-- One command leaves the blend equation as it is. -/
theorem renderCmd_state (conv : Conv F) (drawData : ImDrawData F)
    (acc : vtkOpenGLState × List (Call F)) (cmd : ImDrawCmd F) :
    (renderCmd conv drawData acc cmd).1.BlendEquation = acc.1.BlendEquation := by
  unfold renderCmd
  split <;> simp [vtkOpenGLState.vtkglScissor]

/-- The commands of a list leave the blend equation as it is. -/
theorem foldl_renderCmd_state (conv : Conv F) (drawData : ImDrawData F)
    (cmds : List (ImDrawCmd F)) (acc : vtkOpenGLState × List (Call F)) :
    (cmds.foldl (renderCmd conv drawData) acc).1.BlendEquation = acc.1.BlendEquation := by
  induction cmds generalizing acc with
  | nil => rfl
  | cons cmd rest ih => rw [List.foldl_cons, ih, renderCmd_state]

/-- The command lists leave the blend equation as it is. -/
theorem foldl_renderCmdList_state (conv : Conv F) (drawData : ImDrawData F) (vbo ibo : Handle)
    (lists : List (ImDrawList F)) (acc : vtkOpenGLState × List (Call F)) :
    (lists.foldl (renderCmdList conv drawData vbo ibo) acc).1.BlendEquation
      = acc.1.BlendEquation := by
  induction lists generalizing acc with
  | nil => rfl
  | cons l rest ih =>
    rw [List.foldl_cons, ih]
    unfold renderCmdList
    rw [foldl_renderCmd_state]

end LoopState

section DrawTheorems

variable {F : Type} [Add F] [Sub F] [Mul F] [Div F] [Neg F] [OfNat F 2]
  [LT F] [DecidableRel (fun a b : F => a < b)]

/-- With its five handles non-null, `RenderDrawData` returns. -/
theorem RenderDrawData_isSome (self : Internals) (conv : Conv F)
    (renWin : vtkOpenGLRenderWindow) (drawData : ImDrawData F) (h : self.ready) :
    ∃ r, self.RenderDrawData conv renWin drawData = some r := by
  obtain ⟨ft, va, vb, ib, pr⟩ := self
  obtain ⟨h1, h2, h3, h4, h5⟩ := h
  cases ft <;> cases va <;> cases vb <;> cases ib <;> cases pr <;>
    simp_all [Internals.RenderDrawData]

/-- Whatever the state and the draw data, `RenderDrawData` leaves the blend
equation at `GL_FUNC_ADD`. -/
theorem RenderDrawData_blendEquation (self : Internals) (conv : Conv F)
    (renWin : vtkOpenGLRenderWindow) (drawData : ImDrawData F)
    (r : vtkOpenGLRenderWindow × List (Call F))
    (h : self.RenderDrawData conv renWin drawData = some r) :
    r.1.State.BlendEquation = GL_FUNC_ADD := by
  obtain ⟨ft, va, vb, ib, pr⟩ := self
  cases ft <;> cases va <;> cases vb <;> cases ib <;> cases pr <;>
    simp [Internals.RenderDrawData] at h
  subst h
  simp [vtkOpenGLState.SetEnumState, vtkOpenGLState.vtkglScissor,
    vtkOpenGLState.vtkglBlendFuncSeparate, foldl_renderCmdList_state,
    vtkOpenGLState.vtkglEnable, vtkOpenGLState.vtkglDisable,
    vtkOpenGLState.vtkglBlendEquation]

/-- C1: for every OpenGL state and every draw data, when `RenderDrawData`
returns (it does so whenever the actor's handles are non-null), the scissor
box, the separate blend function and the enabled flags of blending, face
culling, depth test, stencil test and scissor test are what they were before
the call. -/
theorem RenderDrawData_restores_state (self : Internals) (conv : Conv F)
    (renWin : vtkOpenGLRenderWindow) (drawData : ImDrawData F) (h : self.ready) :
    ∃ r, self.RenderDrawData conv renWin drawData = some r ∧
      r.1.State.Scissor = renWin.State.Scissor ∧
      r.1.State.BlendFunc = renWin.State.BlendFunc ∧
      r.1.State.GetEnumState .GL_BLEND = renWin.State.GetEnumState .GL_BLEND ∧
      r.1.State.GetEnumState .GL_CULL_FACE = renWin.State.GetEnumState .GL_CULL_FACE ∧
      r.1.State.GetEnumState .GL_DEPTH_TEST = renWin.State.GetEnumState .GL_DEPTH_TEST ∧
      r.1.State.GetEnumState .GL_STENCIL_TEST = renWin.State.GetEnumState .GL_STENCIL_TEST ∧
      r.1.State.GetEnumState .GL_SCISSOR_TEST = renWin.State.GetEnumState .GL_SCISSOR_TEST := by
  obtain ⟨ft, va, vb, ib, pr⟩ := self
  obtain ⟨h1, h2, h3, h4, h5⟩ := h
  cases ft <;> cases va <;> cases vb <;> cases ib <;> cases pr <;>
    simp_all [Internals.RenderDrawData, vtkOpenGLState.SetEnumState,
      vtkOpenGLState.vtkglScissor, vtkOpenGLState.vtkglBlendFuncSeparate,
      vtkOpenGLState.GetEnumState]

end DrawTheorems

/-- C1, at a concrete input: the sample actor draws the sample draw data. -/
theorem RenderDrawData_restores_state_witness :
    sampleInternals.ready ∧
    ∃ r, sampleInternals.RenderDrawData ratConv sampleWindow sampleDrawData = some r ∧
      r.1.State.Scissor = sampleWindow.State.Scissor ∧
      r.1.State.BlendFunc = sampleWindow.State.BlendFunc ∧
      r.1.State.GetEnumState .GL_BLEND = sampleWindow.State.GetEnumState .GL_BLEND ∧
      r.1.State.GetEnumState .GL_CULL_FACE = sampleWindow.State.GetEnumState .GL_CULL_FACE ∧
      r.1.State.GetEnumState .GL_DEPTH_TEST = sampleWindow.State.GetEnumState .GL_DEPTH_TEST ∧
      r.1.State.GetEnumState .GL_STENCIL_TEST
        = sampleWindow.State.GetEnumState .GL_STENCIL_TEST ∧
      r.1.State.GetEnumState .GL_SCISSOR_TEST
        = sampleWindow.State.GetEnumState .GL_SCISSOR_TEST :=
  ⟨by decide,
   RenderDrawData_restores_state sampleInternals ratConv sampleWindow sampleDrawData
     (by decide)⟩

/-- C2: on the sample state, whose blend equation is `GL_FUNC_SUBTRACT`,
`RenderDrawData` returns with the blend equation `GL_FUNC_ADD`: the blend
equation it set for its own drawing is not put back. -/
theorem RenderDrawData_blendEquation_not_restored :
    sampleWindow.State.BlendEquation = GL_FUNC_SUBTRACT ∧
    ∃ r, sampleInternals.RenderDrawData ratConv sampleWindow sampleDrawData = some r ∧
      r.1.State.BlendEquation = GL_FUNC_ADD ∧
      r.1.State.BlendEquation ≠ sampleWindow.State.BlendEquation := by
  refine ⟨rfl, ?_⟩
  obtain ⟨r, hr⟩ := RenderDrawData_isSome sampleInternals ratConv sampleWindow sampleDrawData
    (by decide)
  have hb := RenderDrawData_blendEquation _ _ _ _ r hr
  refine ⟨r, hr, hb, ?_⟩
  rw [hb]
  decide

/-! ## RenderDrawData: the recorded calls -/

section CallTheorems

variable {F : Type} [Sub F] [Mul F] [LT F] [DecidableRel (fun a b : F => a < b)]

/-- One command appends its calls to the record. -/
theorem renderCmd_calls (conv : Conv F) (drawData : ImDrawData F)
    (acc : vtkOpenGLState × List (Call F)) (cmd : ImDrawCmd F) :
    (renderCmd conv drawData acc cmd).2 = acc.2 ++ cmdCalls conv drawData cmd := by
  unfold renderCmd cmdCalls
  split <;> simp

/-- The commands of a list append their calls in order. -/
theorem foldl_renderCmd_calls (conv : Conv F) (drawData : ImDrawData F)
    (cmds : List (ImDrawCmd F)) (acc : vtkOpenGLState × List (Call F)) :
    (cmds.foldl (renderCmd conv drawData) acc).2
      = acc.2 ++ cmds.flatMap (cmdCalls conv drawData) := by
  induction cmds generalizing acc with
  | nil => simp
  | cons cmd rest ih =>
    rw [List.foldl_cons, ih, renderCmd_calls, List.flatMap_cons, List.append_assoc]

/-- The command lists append their uploads and their calls in order. -/
theorem foldl_renderCmdList_calls (conv : Conv F) (drawData : ImDrawData F) (vbo ibo : Handle)
    (lists : List (ImDrawList F)) (acc : vtkOpenGLState × List (Call F)) :
    (lists.foldl (renderCmdList conv drawData vbo ibo) acc).2
      = acc.2 ++ lists.flatMap (fun l =>
          [Call.Upload vbo l.VtxBufferSize, Call.Upload ibo l.IdxBufferSize]
            ++ l.CmdBuffer.flatMap (cmdCalls conv drawData)) := by
  induction lists generalizing acc with
  | nil => simp
  | cons l rest ih =>
    rw [List.foldl_cons, ih, List.flatMap_cons]
    unfold renderCmdList
    rw [foldl_renderCmd_calls]
    simp [List.append_assoc]

/-- The scissor and draw calls among the calls of some commands. -/
theorem filter_cmdCalls (conv : Conv F) (drawData : ImDrawData F) (cmds : List (ImDrawCmd F)) :
    (cmds.flatMap (cmdCalls conv drawData)).filter Call.isScissorOrDraw
      = (cmds.filter (clipVisible drawData)).flatMap
          (fun cmd => [scissorCall conv drawData cmd, drawCall conv cmd]) := by
  induction cmds with
  | nil => rfl
  | cons cmd rest ih =>
    rw [List.flatMap_cons, List.filter_append, ih, List.filter_cons]
    unfold cmdCalls
    cases hv : clipVisible drawData cmd <;>
      simp [scissorCall, drawCall, Call.isScissorOrDraw]

/-- The draw calls among the calls of some commands. -/
theorem filter_isDraw_cmdCalls (conv : Conv F) (drawData : ImDrawData F)
    (cmds : List (ImDrawCmd F)) :
    (cmds.flatMap (cmdCalls conv drawData)).filter Call.isDraw
      = (cmds.filter (clipVisible drawData)).map (drawCall conv) := by
  induction cmds with
  | nil => rfl
  | cons cmd rest ih =>
    rw [List.flatMap_cons, List.filter_append, ih, List.filter_cons]
    unfold cmdCalls
    cases hv : clipVisible drawData cmd <;>
      simp [scissorCall, drawCall, Call.isDraw]

/-- The scissor and draw calls among the calls of the command lists. -/
theorem filter_lists (conv : Conv F) (drawData : ImDrawData F) (vbo ibo : Handle)
    (p : Call F → Bool) (hp : ∀ h n, p (Call.Upload h n) = false)
    (lists : List (ImDrawList F)) :
    (lists.flatMap (fun l =>
        [Call.Upload vbo l.VtxBufferSize, Call.Upload ibo l.IdxBufferSize]
          ++ l.CmdBuffer.flatMap (cmdCalls conv drawData))).filter p
      = ((lists.flatMap (fun l => l.CmdBuffer)).flatMap (cmdCalls conv drawData)).filter p := by
  induction lists with
  | nil => rfl
  | cons l rest ih =>
    simp only [List.flatMap_cons, List.filter_append, ih, List.flatMap_append]
    simp [List.filter_cons, hp]

/-- The commands and uploads set no uniform. -/
theorem filterMap_uniform_lists (conv : Conv F) (drawData : ImDrawData F) (vbo ibo : Handle)
    (lists : List (ImDrawList F)) :
    (lists.flatMap (fun l =>
        [Call.Upload vbo l.VtxBufferSize, Call.Upload ibo l.IdxBufferSize]
          ++ l.CmdBuffer.flatMap (cmdCalls conv drawData))).filterMap Call.uniform2f? = [] := by
  induction lists with
  | nil => rfl
  | cons l rest ih =>
    simp only [List.flatMap_cons, List.filterMap_append, ih, List.append_nil,
      List.filterMap_cons, Call.uniform2f?, List.filterMap_nil, List.nil_append]
    induction l.CmdBuffer with
    | nil => rfl
    | cons cmd cmds ihc =>
      simp only [List.flatMap_cons, List.filterMap_append, ihc, List.append_nil]
      unfold cmdCalls
      split <;> simp [scissorCall, drawCall, Call.uniform2f?]

end CallTheorems

section DrawCallTheorems

variable {F : Type} [Add F] [Sub F] [Mul F] [Div F] [Neg F] [OfNat F 2]
  [LT F] [DecidableRel (fun a b : F => a < b)]

/-- The record of `RenderDrawData`: the set-up calls, the uploads and calls of
the command lists in order, the release calls. -/
theorem RenderDrawData_calls (self : Internals) (conv : Conv F)
    (renWin : vtkOpenGLRenderWindow) (drawData : ImDrawData F)
    (r : vtkOpenGLRenderWindow × List (Call F))
    (h : self.RenderDrawData conv renWin drawData = some r) :
    ∃ ft va vb ib pr, self = ⟨some ft, some va, some vb, some ib, some pr⟩ ∧
      r.2 = [Call.ReadyShaderProgram pr, Call.Activate ft,
             Call.SetUniform2f "Scale" (scale drawData),
             Call.SetUniform2f "Shift" (shift drawData), Call.SetUniformi "Texture" ft,
             Call.Bind va, Call.Bind vb, Call.Bind ib]
          ++ drawData.CmdLists.flatMap (fun l =>
              [Call.Upload vb l.VtxBufferSize, Call.Upload ib l.IdxBufferSize]
                ++ l.CmdBuffer.flatMap (cmdCalls conv drawData))
          ++ [Call.Release va, Call.Release vb, Call.Release ib, Call.Deactivate ft] := by
  obtain ⟨ft, va, vb, ib, pr⟩ := self
  cases ft <;> cases va <;> cases vb <;> cases ib <;> cases pr <;>
    simp [Internals.RenderDrawData] at h
  subst h
  refine ⟨_, _, _, _, _, rfl, ?_⟩
  simp [foldl_renderCmdList_calls]

/-- C3: for every draw data, when `RenderDrawData` returns (it does so
whenever the actor's handles are non-null), its scissor and draw calls are,
for the commands taken in command-list order and then in command order whose
projected clip rectangle has `clipMax.x > clipMin.x` and
`clipMax.y > clipMin.y`, one scissor call followed by one triangle draw call
with element count `ElemCount` and byte offset `IdxOffset * sizeof(ImDrawIdx)`;
the other commands contribute no call. -/
theorem RenderDrawData_draw_calls (self : Internals) (conv : Conv F)
    (renWin : vtkOpenGLRenderWindow) (drawData : ImDrawData F) (h : self.ready) :
    ∃ r, self.RenderDrawData conv renWin drawData = some r ∧
      r.2.filter Call.isScissorOrDraw
        = ((allCmds drawData).filter (fun cmd =>
              decide ((clipMax drawData cmd).x > (clipMin drawData cmd).x) &&
              decide ((clipMax drawData cmd).y > (clipMin drawData cmd).y))).flatMap
            (fun cmd =>
              [Call.vtkglScissor (scissorArgs conv drawData cmd).x
                 (scissorArgs conv drawData cmd).y (scissorArgs conv drawData cmd).width
                 (scissorArgs conv drawData cmd).height,
               Call.glDrawElements GL_TRIANGLES cmd.ElemCount (idxType conv)
                 (cmd.IdxOffset * conv.sizeofImDrawIdx)]) ∧
      r.2.filter Call.isDraw
        = ((allCmds drawData).filter (fun cmd =>
              decide ((clipMax drawData cmd).x > (clipMin drawData cmd).x) &&
              decide ((clipMax drawData cmd).y > (clipMin drawData cmd).y))).map
            (fun cmd =>
              Call.glDrawElements GL_TRIANGLES cmd.ElemCount (idxType conv)
                (cmd.IdxOffset * conv.sizeofImDrawIdx)) := by
  obtain ⟨r, hr⟩ := RenderDrawData_isSome self conv renWin drawData h
  obtain ⟨ft, va, vb, ib, pr, -, hcalls⟩ := RenderDrawData_calls self conv renWin drawData r hr
  have hvis : (fun cmd : ImDrawCmd F =>
      decide ((clipMax drawData cmd).x > (clipMin drawData cmd).x) &&
      decide ((clipMax drawData cmd).y > (clipMin drawData cmd).y)) = clipVisible drawData := by
    funext cmd
    rfl
  refine ⟨r, hr, ?_, ?_⟩
  · rw [hvis, hcalls, List.filter_append, List.filter_append,
      filter_lists conv drawData vb ib Call.isScissorOrDraw (fun _ _ => rfl), filter_cmdCalls]
    simp [Call.isScissorOrDraw, allCmds, scissorCall, drawCall]
  · rw [hvis, hcalls, List.filter_append, List.filter_append,
      filter_lists conv drawData vb ib Call.isDraw (fun _ _ => rfl), filter_isDraw_cmdCalls]
    simp [Call.isDraw, allCmds, drawCall]

end DrawCallTheorems

/-- C3, at a concrete input: of the two commands of the sample draw data only
the first has a non-empty clip rectangle, and it alone is drawn. -/
theorem RenderDrawData_draw_calls_witness :
    sampleInternals.ready ∧
    ∃ r, sampleInternals.RenderDrawData ratConv sampleWindow sampleDrawData = some r ∧
      r.2.filter Call.isDraw = [Call.glDrawElements GL_TRIANGLES 6 GL_UNSIGNED_SHORT 0] := by
  refine ⟨by decide, ?_⟩
  obtain ⟨r, hr, -, hd⟩ :=
    RenderDrawData_draw_calls sampleInternals ratConv sampleWindow sampleDrawData (by decide)
  refine ⟨r, hr, ?_⟩
  rw [hd]
  norm_num [allCmds, sampleDrawData, clipMin, clipMax, List.filter_cons, idxType, ratConv]

/-! ## RenderDrawData: exact arithmetic -/

/-- Truncation toward zero leaves an integer-valued rational unchanged. -/
theorem ratConv_toGLint_intCast (n : ℤ) : ratConv.toGLint (n : ℚ) = n := by
  simp [ratConv]

/-- C8: the `Scale` and `Shift` uniforms `RenderDrawData` sets are `scale` and
`shift`, and in exact arithmetic, for a display size with non-zero width and
height, `p * Scale + Shift` sends `DisplayPos` to `(-1, +1)` and
`DisplayPos + DisplaySize` to `(+1, -1)`. -/
theorem scale_shift_maps_display (drawData : ImDrawData ℚ)
    (hx : drawData.DisplaySize.x ≠ 0) (hy : drawData.DisplaySize.y ≠ 0) :
    (∀ (self : Internals) (renWin : vtkOpenGLRenderWindow)
        (r : vtkOpenGLRenderWindow × List (Call ℚ)),
      self.RenderDrawData ratConv renWin drawData = some r →
      r.2.filterMap Call.uniform2f?
        = [("Scale", scale drawData), ("Shift", shift drawData)]) ∧
    drawData.DisplayPos.x * (scale drawData).x + (shift drawData).x = -1 ∧
    drawData.DisplayPos.y * (scale drawData).y + (shift drawData).y = 1 ∧
    (drawData.DisplayPos.x + drawData.DisplaySize.x) * (scale drawData).x
      + (shift drawData).x = 1 ∧
    (drawData.DisplayPos.y + drawData.DisplaySize.y) * (scale drawData).y
      + (shift drawData).y = -1 := by
  refine ⟨?_, ?_⟩
  · intro self renWin r hr
    obtain ⟨ft, va, vb, ib, pr, -, hcalls⟩ :=
      RenderDrawData_calls self ratConv renWin drawData r hr
    rw [hcalls]
    simp only [List.filterMap_append, List.filterMap_cons, List.filterMap_nil,
      Call.uniform2f?, filterMap_uniform_lists, List.append_nil]
  · simp only [scale, shift]
    refine ⟨?_, ?_, ?_, ?_⟩ <;> field_simp <;> ring

/-- C8, at a concrete input: the sample draw data, an 800 by 600 display. -/
theorem scale_shift_maps_display_witness :
    sampleDrawData.DisplaySize.x ≠ 0 ∧ sampleDrawData.DisplaySize.y ≠ 0 ∧
    sampleDrawData.DisplayPos.x * (scale sampleDrawData).x + (shift sampleDrawData).x = -1 ∧
    (sampleDrawData.DisplayPos.y + sampleDrawData.DisplaySize.y) * (scale sampleDrawData).y
      + (shift sampleDrawData).y = -1 :=
  have h := scale_shift_maps_display sampleDrawData
    (by norm_num [sampleDrawData]) (by norm_num [sampleDrawData])
  ⟨by norm_num [sampleDrawData], by norm_num [sampleDrawData], h.2.1, h.2.2.2.2⟩

/-- C9: in exact arithmetic, for a command whose projected clip rectangle
`(a, b)-(c, d)` and framebuffer height `e` are integer-valued with `a < c` and
`b < d`, the inner loop issues the scissor call `(a, e - d, c - a, d - b)` and
sets that scissor box; width and height are positive and `y + height` is
`e - b`. -/
theorem scissor_rectangle (drawData : ImDrawData ℚ) (cmd : ImDrawCmd ℚ)
    (acc : vtkOpenGLState × List (Call ℚ)) (a b c d e : ℤ)
    (hmin : clipMin drawData cmd = ⟨a, b⟩) (hmax : clipMax drawData cmd = ⟨c, d⟩)
    (hfb : fbHeight drawData = e) (hx : a < c) (hy : b < d) :
    (renderCmd ratConv drawData acc cmd).2
      = acc.2 ++ [Call.vtkglScissor a (e - d) (c - a) (d - b), drawCall ratConv cmd] ∧
    (renderCmd ratConv drawData acc cmd).1.Scissor = ⟨a, e - d, c - a, d - b⟩ ∧
    0 < c - a ∧ 0 < d - b ∧ (e - d) + (d - b) = e - b := by
  have hvis : clipVisible drawData cmd = true := by
    simp [clipVisible, hmin, hmax, hx, hy]
  have hargs : scissorArgs ratConv drawData cmd = ⟨a, e - d, c - a, d - b⟩ := by
    simp only [scissorArgs, hmin, hmax, hfb, ← Int.cast_sub, ratConv_toGLint_intCast]
  refine ⟨?_, ?_, by omega, by omega, by omega⟩
  · simp [renderCmd, hvis, scissorCall, hargs]
  · simp [renderCmd, hvis, hargs, vtkOpenGLState.vtkglScissor]

/-- C9, at a concrete input: the first command of the sample draw data. -/
theorem scissor_rectangle_witness :
    (renderCmd ratConv sampleDrawData (sampleState, []) ⟨⟨10, 20, 110, 70⟩, 0, 6⟩).2
      = [Call.vtkglScissor 10 530 100 50,
         Call.glDrawElements GL_TRIANGLES 6 GL_UNSIGNED_SHORT 0] :=
  (scissor_rectangle sampleDrawData ⟨⟨10, 20, 110, 70⟩, 0, 6⟩ (sampleState, [])
    10 20 110 70 600
    (by norm_num [clipMin, sampleDrawData]) (by norm_num [clipMax, sampleDrawData])
    (by norm_num [fbHeight, sampleDrawData]) (by decide) (by decide)).1

/-! ## Life cycle of the resources -/

section LifeCycle

variable {F : Type}

/-- Without a current context `Internals::Release` does nothing. -/
theorem Release_of_none (a : vtkF3DImguiActor F) (h : a.GImGui = none) :
    Internals.Release a = (a, []) := by
  simp [Internals.Release, h]

/-- With a current context `Internals::Release` resets four handles, keeps the
vertex array and destroys the context. -/
theorem Release_of_some (a : vtkF3DImguiActor F) (c : ImGuiContext F) (h : a.GImGui = some c) :
    (Internals.Release a).1
      = { a with Pimpl := ⟨none, a.Pimpl.VertexArray, none, none, none⟩, GImGui := none } := by
  obtain ⟨⟨ft, va, vb, ib, pr⟩, ff, g, n⟩ := a
  simp only at h
  subst h
  cases ft <;> cases vb <;> cases ib <;> cases pr <;> simp [Internals.Release]

/-- After `Internals::Release` no context is current. -/
theorem Release_GImGui (a : vtkF3DImguiActor F) : (Internals.Release a).1.GImGui = none := by
  cases h : a.GImGui with
  | none => rw [Release_of_none a h]; exact h
  | some c => rw [Release_of_some a c h]

/-- After `vtkF3DImguiActor::Initialize` a fresh context is current, and the
handles are those `Internals::Release` leaves. -/
theorem Initialize_fst (a : vtkF3DImguiActor F) (renWin : vtkOpenGLRenderWindow) :
    ∃ c : ImGuiContext F, c.TexID = none ∧ c.DisplaySize = none ∧
      (a.Initialize renWin).1 = { (Internals.Release a).1 with GImGui := some c } := by
  exact ⟨_, rfl, rfl, rfl⟩

/-- With a font texture `Internals::Initialize` does nothing. -/
theorem InternalsInitialize_of_some (a : vtkF3DImguiActor F) (renWin : vtkOpenGLRenderWindow)
    (tex : Handle) (h : a.Pimpl.FontTexture = some tex) :
    Internals.Initialize a renWin = some (a, []) := by
  simp [Internals.Initialize, h]

/-- `StartFrame` always returns. -/
theorem StartFrame_isSome (a : vtkF3DImguiActor F) (conv : Conv F)
    (renWin : vtkOpenGLRenderWindow) : ∃ r, a.StartFrame conv renWin = some r := by
  obtain ⟨⟨ft, va, vb, ib, pr⟩, ff, g, n⟩ := a
  cases g <;> cases ft <;>
    simp [vtkF3DImguiActor.StartFrame, vtkF3DImguiActor.Initialize,
      vtkF3DImguiActor.ReleaseGraphicsResources, Internals.Release, Internals.Initialize]

/-- If the four handles are null whenever no context is current, then after
`Internals::Release` they are null and no context is current. -/
theorem Release_preserves (a : vtkF3DImguiActor F)
    (h : a.GImGui = none → a.Pimpl.released) :
    (Internals.Release a).1.GImGui = none ∧ (Internals.Release a).1.Pimpl.released := by
  cases hg : a.GImGui with
  | none =>
    rw [Release_of_none a hg]
    exact ⟨hg, h hg⟩
  | some c =>
    rw [Release_of_some a c hg]
    exact ⟨rfl, rfl, rfl, rfl, rfl⟩

/-- `Initialize` keeps the resource invariant. -/
theorem Initialize_preserves (a : vtkF3DImguiActor F) (renWin : vtkOpenGLRenderWindow)
    (h : a.GImGui = none → a.Pimpl.released) :
    ((a.Initialize renWin).1.GImGui = none → (a.Initialize renWin).1.Pimpl.released) ∧
    (a.Initialize renWin).1.consistent := by
  obtain ⟨c, -, -, hc⟩ := Initialize_fst a renWin
  obtain ⟨-, hrel⟩ := Release_preserves a h
  rw [hc]
  refine ⟨fun hn => by simp at hn, ?_⟩
  intro tex htex
  have : (Internals.Release a).1.Pimpl.FontTexture = none := hrel.1
  simp only at htex
  rw [this] at htex
  cases htex

/-- `StartFrame` keeps the resource invariant. -/
theorem StartFrame_preserves (a : vtkF3DImguiActor F) (conv : Conv F)
    (renWin : vtkOpenGLRenderWindow) (r : vtkF3DImguiActor F × List (Call F))
    (h1 : a.GImGui = none → a.Pimpl.released) (h2 : a.consistent)
    (hr : a.StartFrame conv renWin = some r) :
    (r.1.GImGui = none → r.1.Pimpl.released) ∧ r.1.consistent := by
  obtain ⟨⟨ft, va, vb, ib, pr⟩, ff, g, n⟩ := a
  cases g with
  | none =>
    have hrel := h1 rfl
    obtain ⟨hft, hvb, hib, hpr⟩ := hrel
    simp only at hft hvb hib hpr
    subst hft hvb hib hpr
    simp [vtkF3DImguiActor.StartFrame, vtkF3DImguiActor.Initialize,
      vtkF3DImguiActor.ReleaseGraphicsResources, Internals.Release, Internals.Initialize] at hr
    subst hr
    simp [vtkF3DImguiActor.consistent, vtkF3DImguiActor.atlasTexID, Internals.ready]
  | some c =>
    cases ft with
    | none =>
      simp [vtkF3DImguiActor.StartFrame, Internals.Initialize] at hr
      subst hr
      simp [vtkF3DImguiActor.consistent, vtkF3DImguiActor.atlasTexID, Internals.ready]
    | some tex =>
      simp [vtkF3DImguiActor.StartFrame, Internals.Initialize] at hr
      subst hr
      have := h2 tex rfl
      simpa [vtkF3DImguiActor.consistent, vtkF3DImguiActor.atlasTexID] using this

end LifeCycle

section LifeCycleDraw

variable {F : Type} [Add F] [Sub F] [Mul F] [Div F] [Neg F] [OfNat F 2]
  [LT F] [DecidableRel (fun a b : F => a < b)]

/-- `EndFrame` leaves the actor and the current context as they are. -/
theorem EndFrame_fst (a : vtkF3DImguiActor F) (conv : Conv F)
    (renWin : vtkOpenGLRenderWindow) (drawData : ImDrawData F)
    (r : vtkF3DImguiActor F × vtkOpenGLRenderWindow × List (Call F))
    (h : a.EndFrame conv renWin drawData = some r) : r.1 = a := by
  unfold vtkF3DImguiActor.EndFrame at h
  cases hg : a.GImGui with
  | none => simp [hg] at h
  | some c =>
    simp only [hg] at h
    cases hd : a.Pimpl.RenderDrawData conv renWin drawData with
    | none => simp [hd] at h
    | some d =>
      simp only [hd, Option.some.injEq] at h
      rw [← h]

/-- Every reachable state satisfies the resource invariant: without a current
context the four released handles are null, and a font texture never outlives
its registration. -/
theorem reachable_inv (a : vtkF3DImguiActor F) (h : Reachable a) :
    (a.GImGui = none → a.Pimpl.released) ∧ a.consistent := by
  induction h with
  | new fontFile ctx nextHandle =>
    refine ⟨fun _ => ⟨rfl, rfl, rfl, rfl⟩, ?_⟩
    intro tex htex
    cases htex
  | Initialize renWin _ ih => exact Initialize_preserves _ renWin ih.1
  | StartFrame conv renWin r _ hr ih => exact StartFrame_preserves _ conv renWin r ih.1 ih.2 hr
  | EndFrame conv renWin drawData r _ hr ih =>
    rw [EndFrame_fst _ conv renWin drawData r hr]
    exact ih
  | ReleaseGraphicsResources w _ ih =>
    obtain ⟨hg, hrel⟩ := Release_preserves _ ih.1
    refine ⟨fun _ => hrel, ?_⟩
    intro tex htex
    have : (Internals.Release _).1.Pimpl.FontTexture = none := hrel.1
    simp only [vtkF3DImguiActor.ReleaseGraphicsResources] at htex
    rw [this] at htex
    cases htex

end LifeCycleDraw

/-! ## Life cycle: the claims -/

section LifeCycleClaims

variable {F : Type}

/-- C4, as amended: in every actor state in which a context is current or the
font texture, vertex buffer, index buffer and program are already null,
after `ReleaseGraphicsResources` these four handles are null and no context
is current. -/
theorem ReleaseGraphicsResources_releases (a : vtkF3DImguiActor F) (w : vtkOpenGLRenderWindow)
    (h : a.GImGui = none →
      a.Pimpl.FontTexture = none ∧ a.Pimpl.VertexBuffer = none ∧
      a.Pimpl.IndexBuffer = none ∧ a.Pimpl.Program = none) :
    (a.ReleaseGraphicsResources w).1.Pimpl.FontTexture = none ∧
    (a.ReleaseGraphicsResources w).1.Pimpl.VertexBuffer = none ∧
    (a.ReleaseGraphicsResources w).1.Pimpl.IndexBuffer = none ∧
    (a.ReleaseGraphicsResources w).1.Pimpl.Program = none ∧
    (a.ReleaseGraphicsResources w).1.GImGui = none := by
  obtain ⟨hg, h1, h2, h3, h4⟩ := Release_preserves a h
  exact ⟨h1, h2, h3, h4, hg⟩

/-- C6, as amended: in every actor state in which a font texture, if there is
one, is registered as the atlas texture id of the current context and comes
with the four other objects, `StartFrame` returns with a context current
whose display size is the window size and whose atlas texture id is the font
texture, and with the five objects non-null; its calls are those that
initialise the context, then those that build the atlas, then `NewFrame`. -/
theorem StartFrame_establishes (a : vtkF3DImguiActor F) (conv : Conv F)
    (renWin : vtkOpenGLRenderWindow) (h : a.consistent) :
    ∃ r, a.StartFrame conv renWin = some r ∧
      (∃ io, r.1.GImGui = some io ∧
        io.DisplaySize = some ⟨conv.toFloat renWin.Size.1, conv.toFloat renWin.Size.2⟩ ∧
        io.TexID = r.1.Pimpl.FontTexture) ∧
      r.1.Pimpl.FontTexture ≠ none ∧ r.1.Pimpl.VertexBuffer ≠ none ∧
      r.1.Pimpl.IndexBuffer ≠ none ∧ r.1.Pimpl.VertexArray ≠ none ∧
      r.1.Pimpl.Program ≠ none ∧
      ∃ init atlas, r.2 = init ++ atlas ++ [Call.NewFrame] ∧
        (∀ c ∈ init, c.isAtlasBuild = false ∧ c.isNewFrame = false) ∧
        (∀ c ∈ atlas, c.isContextInit = false ∧ c.isNewFrame = false) ∧
        (a.GImGui = none → Call.CreateContext ∈ init) ∧
        (a.Pimpl.FontTexture = none → ∃ tex, Call.Create2DFromRaw tex ∈ atlas) := by
  obtain ⟨⟨ft, va, vb, ib, pr⟩, ff, g, n⟩ := a
  cases g with
  | none =>
    cases ft with
    | some tex =>
      have := (h tex rfl).1
      simp [vtkF3DImguiActor.atlasTexID] at this
    | none =>
      refine ⟨_, by
        simp [vtkF3DImguiActor.StartFrame, vtkF3DImguiActor.Initialize,
          vtkF3DImguiActor.ReleaseGraphicsResources, Internals.Release, Internals.Initialize]
        rfl, ?_⟩
      refine ⟨⟨_, rfl, rfl, rfl⟩, by simp, by simp, by simp, by simp, by simp, ?_⟩
      refine ⟨[Call.CreateContext, Call.SetCurrentContext,
          Call.AddFont (if ff.isEmpty = true then FontSource.memory else FontSource.file ff),
          Call.FontsBuild],
        [Call.GetTexDataAsRGBA32, Call.Create2DFromRaw n, Call.SetTexID (some n),
          Call.GenerateBuffer (n + 1), Call.GenerateBuffer (n + 2),
          Call.ReadyShaderProgram renWin.ShaderProgram, Call.Bind (n + 3),
          Call.AddAttributeArray (n + 3) "Position", Call.AddAttributeArray (n + 3) "UV",
          Call.AddAttributeArray (n + 3) "Color"], rfl, ?_, ?_, ?_, ?_⟩
      · intro c hc
        simp at hc
        rcases hc with rfl | rfl | rfl | rfl <;> exact ⟨rfl, rfl⟩
      · intro c hc
        simp at hc
        rcases hc with rfl | rfl | rfl | rfl | rfl | rfl | rfl | rfl | rfl | rfl <;>
          exact ⟨rfl, rfl⟩
      · intro _
        simp
      · intro _
        exact ⟨n, by simp⟩
  | some c =>
    cases ft with
    | none =>
      refine ⟨_, by
        simp [vtkF3DImguiActor.StartFrame, Internals.Initialize]
        rfl, ?_⟩
      refine ⟨⟨_, rfl, rfl, rfl⟩, by simp, by simp, by simp, by simp, by simp, ?_⟩
      refine ⟨[], [Call.GetTexDataAsRGBA32, Call.Create2DFromRaw n, Call.SetTexID (some n),
          Call.GenerateBuffer (n + 1), Call.GenerateBuffer (n + 2),
          Call.ReadyShaderProgram renWin.ShaderProgram, Call.Bind (n + 3),
          Call.AddAttributeArray (n + 3) "Position", Call.AddAttributeArray (n + 3) "UV",
          Call.AddAttributeArray (n + 3) "Color"], rfl, ?_, ?_, ?_, ?_⟩
      · intro c hc
        simp at hc
      · intro c hc
        simp at hc
        rcases hc with rfl | rfl | rfl | rfl | rfl | rfl | rfl | rfl | rfl | rfl <;>
          exact ⟨rfl, rfl⟩
      · intro hn
        simp at hn
      · intro _
        exact ⟨n, by simp⟩
    | some tex =>
      obtain ⟨hid, hready⟩ := h tex rfl
      obtain ⟨-, hva, hvb, hib, hpr⟩ := hready
      simp [vtkF3DImguiActor.atlasTexID] at hid
      refine ⟨_, by
        simp [vtkF3DImguiActor.StartFrame, Internals.Initialize]
        rfl, ?_⟩
      refine ⟨⟨_, rfl, rfl, hid⟩, by simp, hvb, hib, hva, hpr, ?_⟩
      refine ⟨[], [], rfl, ?_, ?_, ?_, ?_⟩
      · intro c hc
        simp at hc
      · intro c hc
        simp at hc
      · intro hn
        simp at hn
      · intro hn
        simp at hn

/-- C7: in every state in which a context is current and the font texture is
non-null, `Internals::Initialize` does nothing and `StartFrame` leaves the five
handles as they are, its only call being `NewFrame`; and whatever the state,
a second `Internals::Initialize` does nothing after a first. -/
theorem StartFrame_keeps_handles (a : vtkF3DImguiActor F) (conv : Conv F)
    (renWin : vtkOpenGLRenderWindow) (c : ImGuiContext F) (tex : Handle)
    (hc : a.GImGui = some c) (hf : a.Pimpl.FontTexture = some tex) :
    Internals.Initialize a renWin = some (a, []) ∧
    (∃ r, a.StartFrame conv renWin = some r ∧ r.1.Pimpl = a.Pimpl ∧ r.2 = [Call.NewFrame]) ∧
    (∀ (b : vtkF3DImguiActor F) (r1 : vtkF3DImguiActor F × List (Call F)),
      Internals.Initialize b renWin = some r1 →
      Internals.Initialize r1.1 renWin = some (r1.1, [])) := by
  refine ⟨InternalsInitialize_of_some a renWin tex hf, ?_, ?_⟩
  · obtain ⟨⟨ft, va, vb, ib, pr⟩, ff, g, n⟩ := a
    simp only at hc hf
    subst hc hf
    exact ⟨_, by
      simp [vtkF3DImguiActor.StartFrame, Internals.Initialize]
      rfl, rfl, rfl⟩
  · intro b r1 hb
    obtain ⟨⟨ft, va, vb, ib, pr⟩, ff, g, n⟩ := b
    cases ft with
    | some t =>
      simp [Internals.Initialize] at hb
      subst hb
      simp [Internals.Initialize]
    | none =>
      cases g with
      | none => simp [Internals.Initialize] at hb
      | some io =>
        simp [Internals.Initialize] at hb
        subst hb
        simp [Internals.Initialize]

end LifeCycleClaims

section ReachableClaims

variable {F : Type} [Add F] [Sub F] [Mul F] [Div F] [Neg F] [OfNat F 2]
  [LT F] [DecidableRel (fun a b : F => a < b)]

/-- C5: in every state reachable from a freshly constructed actor by
`Initialize`, `StartFrame`, `EndFrame` and `ReleaseGraphicsResources`, whenever
no context is current the font texture, vertex buffer, index buffer and
program are all null. -/
theorem reachable_released (a : vtkF3DImguiActor F) (h : Reachable a)
    (hc : a.GImGui = none) :
    a.Pimpl.FontTexture = none ∧ a.Pimpl.VertexBuffer = none ∧
    a.Pimpl.IndexBuffer = none ∧ a.Pimpl.Program = none :=
  (reachable_inv a h).1 hc

end ReachableClaims

/-- C4, as stated, fails: the stale actor has no current context, so
`ReleaseGraphicsResources` returns with its font texture, vertex buffer, index
buffer and program still held. -/
theorem ReleaseGraphicsResources_without_context :
    staleActor.GImGui = none ∧
    (staleActor.ReleaseGraphicsResources sampleWindow).1.Pimpl.FontTexture = some 0 ∧
    (staleActor.ReleaseGraphicsResources sampleWindow).1.Pimpl.VertexBuffer = some 1 ∧
    (staleActor.ReleaseGraphicsResources sampleWindow).1.Pimpl.IndexBuffer = some 2 ∧
    (staleActor.ReleaseGraphicsResources sampleWindow).1.Pimpl.Program = some 7 := by
  simp [staleActor, vtkF3DImguiActor.ReleaseGraphicsResources, Internals.Release,
    sampleInternals]

/-- C4, at a concrete input: the initialised actor is released. -/
theorem ReleaseGraphicsResources_releases_witness :
    liveActor.Pimpl.FontTexture = some 0 ∧
    (liveActor.ReleaseGraphicsResources sampleWindow).1.Pimpl.FontTexture = none ∧
    (liveActor.ReleaseGraphicsResources sampleWindow).1.Pimpl.VertexBuffer = none ∧
    (liveActor.ReleaseGraphicsResources sampleWindow).1.Pimpl.IndexBuffer = none ∧
    (liveActor.ReleaseGraphicsResources sampleWindow).1.Pimpl.Program = none ∧
    (liveActor.ReleaseGraphicsResources sampleWindow).1.GImGui = none :=
  ⟨rfl, ReleaseGraphicsResources_releases liveActor sampleWindow
    (by simp [liveActor])⟩

/-- C5, at a concrete input: a fresh actor starts a frame, which creates its
objects, and is then released. -/
theorem reachable_released_witness :
    ∃ r, (vtkF3DImguiActor.new "" none 0 : vtkF3DImguiActor ℚ).StartFrame ratConv sampleWindow
        = some r ∧
      r.1.Pimpl.FontTexture = some 0 ∧
      (r.1.ReleaseGraphicsResources sampleWindow).1.GImGui = none ∧
      (r.1.ReleaseGraphicsResources sampleWindow).1.Pimpl.FontTexture = none ∧
      (r.1.ReleaseGraphicsResources sampleWindow).1.Pimpl.VertexBuffer = none ∧
      (r.1.ReleaseGraphicsResources sampleWindow).1.Pimpl.IndexBuffer = none ∧
      (r.1.ReleaseGraphicsResources sampleWindow).1.Pimpl.Program = none := by
  obtain ⟨r, hr⟩ :=
    StartFrame_isSome (vtkF3DImguiActor.new "" none 0 : vtkF3DImguiActor ℚ) ratConv sampleWindow
  have hft : r.1.Pimpl.FontTexture = some 0 := by
    have hr2 := hr
    simp [vtkF3DImguiActor.new, vtkF3DImguiActor.StartFrame, vtkF3DImguiActor.Initialize,
      vtkF3DImguiActor.ReleaseGraphicsResources, Internals.Release, Internals.Initialize]
      at hr2
    rw [← hr2]
  exact ⟨r, hr, hft, Release_GImGui _,
    reachable_released _
      (Reachable.ReleaseGraphicsResources sampleWindow
        (Reachable.StartFrame ratConv sampleWindow r (Reachable.new "" none 0) hr))
      (Release_GImGui _)⟩

/-- C6, as stated, fails: the stale actor holds a font texture while no
context is current; `StartFrame` creates a context and keeps the texture
without registering it, so the atlas texture id is not the font texture. -/
theorem StartFrame_without_registration :
    ∃ r, staleActor.StartFrame ratConv sampleWindow = some r ∧
      r.1.Pimpl.FontTexture = some 0 ∧ r.1.atlasTexID = none := by
  obtain ⟨r, hr⟩ := StartFrame_isSome staleActor ratConv sampleWindow
  have hr2 := hr
  simp [staleActor, vtkF3DImguiActor.StartFrame, vtkF3DImguiActor.Initialize,
    vtkF3DImguiActor.ReleaseGraphicsResources, Internals.Release, Internals.Initialize,
    sampleInternals] at hr2
  refine ⟨r, hr, ?_, ?_⟩
  · rw [← hr2]
  · rw [← hr2]
    rfl

/-- C6, at a concrete input: a fresh actor without a context starts a frame
in the 800 by 600 window. -/
theorem StartFrame_establishes_witness :
    ∃ r, (vtkF3DImguiActor.new "" none 0 : vtkF3DImguiActor ℚ).StartFrame ratConv sampleWindow
        = some r ∧
      (∃ io, r.1.GImGui = some io ∧ io.DisplaySize = some ⟨800, 600⟩ ∧
        io.TexID = r.1.Pimpl.FontTexture) ∧
      r.1.Pimpl.FontTexture ≠ none := by
  obtain ⟨r, hr, ⟨io, hio, hsize, htex⟩, hft, -⟩ :=
    StartFrame_establishes (vtkF3DImguiActor.new "" none 0 : vtkF3DImguiActor ℚ) ratConv
      sampleWindow (by
        intro tex h
        simp [vtkF3DImguiActor.new] at h)
  refine ⟨r, hr, ⟨io, hio, ?_, htex⟩, hft⟩
  rw [hsize]
  simp [ratConv, sampleWindow]

/-- C7, at a concrete input: the initialised actor starts its next frame. -/
theorem StartFrame_keeps_handles_witness :
    ∃ r, liveActor.StartFrame ratConv sampleWindow = some r ∧
      r.1.Pimpl = sampleInternals ∧ r.2 = [Call.NewFrame] :=
  (StartFrame_keeps_handles liveActor ratConv sampleWindow sampleContext 0 rfl rfl).2.1

/-! ## RenderCheatSheet -/

/-- The format with a value displays what is measured. -/
theorem formatText_value (bind desc val : String) :
    formatText "%s: %s [%s]" [bind, desc, val] = bind ++ ": " ++ desc ++ (" [" ++ val ++ "]") := by
  apply String.ext
  simp [formatText, formatV]

/-- The format without a value displays what is measured. -/
theorem formatText_plain (bind desc : String) :
    formatText "%s: %s" [bind, desc] = bind ++ ": " ++ desc := by
  apply String.ext
  simp [formatText, formatV]

/-- The displayed string of an entry is its measured string. -/
theorem displayedLine_eq_measuredLine (e : CheatSheetEntry) :
    displayedLine e = measuredLine e := by
  unfold displayedLine measuredLine
  split
  · exact formatText_value _ _ _
  · exact formatText_plain _ _

/-- In exact arithmetic `std::max` is the maximum. -/
theorem stdMax_eq_max (a b : ℚ) : stdMax a b = max a b := by
  unfold stdMax
  split
  · rw [max_eq_right (le_of_lt (by assumption))]
  · rw [max_eq_left (le_of_not_lt (by assumption))]

/-- The two nested loops visit the entries of `allEntries` in order. -/
theorem maxLineWidth_eq_foldl (calcTextSize : String → ImVec2 ℚ) (cheatSheet : CheatSheet) :
    maxLineWidth calcTextSize cheatSheet
      = (allEntries cheatSheet).foldl
          (fun winWidth e => stdMax winWidth (calcTextSize (measuredLine e)).x) 0 := by
  unfold maxLineWidth allEntries
  generalize (0 : ℚ) = init
  induction cheatSheet generalizing init with
  | nil => rfl
  | cons g rest ih => rw [List.foldl_cons, ih, List.flatMap_cons, List.foldl_append]

/-- A running maximum is at least its start and every value met, and is one
of them. -/
theorem foldl_stdMax (f : CheatSheetEntry → ℚ) (es : List CheatSheetEntry) (init : ℚ) :
    init ≤ es.foldl (fun w e => stdMax w (f e)) init ∧
    (∀ e ∈ es, f e ≤ es.foldl (fun w e => stdMax w (f e)) init) ∧
    (es.foldl (fun w e => stdMax w (f e)) init = init ∨
      ∃ e ∈ es, es.foldl (fun w e => stdMax w (f e)) init = f e) := by
  induction es generalizing init with
  | nil => simp
  | cons e rest ih =>
    obtain ⟨h1, h2, h3⟩ := ih (stdMax init (f e))
    rw [List.foldl_cons]
    rw [stdMax_eq_max] at h1 h2 h3 ⊢
    refine ⟨le_trans (le_max_left _ _) h1, ?_, ?_⟩
    · intro x hx
      rcases List.mem_cons.mp hx with rfl | hx
      · exact le_trans (le_max_right _ _) h1
      · exact h2 x hx
    · rcases h3 with h3 | ⟨x, hx, h3⟩
      · rcases max_choice init (f e) with hm | hm
        · left; rw [h3, hm]
        · right; exact ⟨e, List.mem_cons_self _ _, by rw [h3, hm]⟩
      · right; exact ⟨x, List.mem_cons_of_mem _ hx, h3⟩

/-- The text widgets of `RenderCheatSheet` are the displayed lines of the
entries in order. -/
theorem RenderCheatSheet_texts (calcTextSize : String → ImVec2 ℚ) (style : ImGuiStyle ℚ)
    (workSizeY : ℚ) (cheatSheet : CheatSheet) :
    (RenderCheatSheet calcTextSize style workSizeY cheatSheet).filterMap Widget.text?
      = (allEntries cheatSheet).map displayedLine := by
  unfold RenderCheatSheet allEntries SetupNextWindow
  simp only [List.filterMap_append, List.filterMap_cons, List.filterMap_nil, Widget.text?,
    List.nil_append, List.append_nil]
  induction cheatSheet with
  | nil => rfl
  | cons g rest ih =>
    simp only [List.flatMap_cons, List.filterMap_append, List.map_append, ih,
      List.filterMap_cons, Widget.text?]
    congr 1
    induction g.2 with
    | nil => rfl
    | cons e es ihe => simp [List.filterMap_cons, Widget.text?, ihe]

/-- C10: for every entry the displayed string is the measured string, the
texts `RenderCheatSheet` displays are the measured strings of the entries in
order, and the window width it passes on is, in exact arithmetic and for a
measure of non-negative widths, the maximum measured width of the entries
(0 for an empty cheat sheet) plus twice the horizontal window padding plus
the scrollbar size. -/
theorem RenderCheatSheet_width (calcTextSize : String → ImVec2 ℚ) (style : ImGuiStyle ℚ)
    (workSizeY : ℚ) (cheatSheet : CheatSheet) (hcalc : ∀ s, 0 ≤ (calcTextSize s).x) :
    (∀ bind desc val : String,
      displayedLine (bind, desc, val) = measuredLine (bind, desc, val) ∧
      measuredLine (bind, desc, val)
        = bind ++ ": " ++ desc ++ (if val.isEmpty then "" else " [" ++ val ++ "]")) ∧
    (RenderCheatSheet calcTextSize style workSizeY cheatSheet).filterMap Widget.text?
      = (allEntries cheatSheet).map measuredLine ∧
    ∃ m : ℚ,
      (RenderCheatSheet calcTextSize style workSizeY cheatSheet).head?
        = some (Widget.SetNextWindowSize
            ⟨m + 2 * style.WindowPadding.x + style.ScrollbarSize, workSizeY - 2 * 5⟩) ∧
      (∀ e ∈ allEntries cheatSheet, (calcTextSize (measuredLine e)).x ≤ m) ∧
      (allEntries cheatSheet = [] → m = 0) ∧
      (allEntries cheatSheet ≠ [] →
        ∃ e ∈ allEntries cheatSheet, m = (calcTextSize (measuredLine e)).x) := by
  refine ⟨?_, ?_, maxLineWidth calcTextSize cheatSheet, ?_, ?_, ?_, ?_⟩
  · intro bind desc val
    refine ⟨displayedLine_eq_measuredLine _, ?_⟩
    unfold measuredLine
    cases hv : val.isEmpty <;> simp [hv]
  · rw [RenderCheatSheet_texts]
    exact List.map_congr_left (fun e _ => displayedLine_eq_measuredLine e)
  · simp [RenderCheatSheet, SetupNextWindow, cheatSheetWidth, add_assoc]
  · rw [maxLineWidth_eq_foldl]
    exact (foldl_stdMax (fun e => (calcTextSize (measuredLine e)).x) _ 0).2.1
  · intro hnil
    rw [maxLineWidth_eq_foldl, hnil]
    rfl
  · intro hne
    rw [maxLineWidth_eq_foldl]
    obtain ⟨-, hle, h0 | hex⟩ :=
      foldl_stdMax (fun e => (calcTextSize (measuredLine e)).x) (allEntries cheatSheet) 0
    · obtain ⟨e, es, hes⟩ := List.exists_cons_of_ne_nil hne
      have he : e ∈ allEntries cheatSheet := by rw [hes]; exact List.mem_cons_self _ _
      refine ⟨e, he, ?_⟩
      rw [h0]
      have := hle e he
      rw [h0] at this
      exact le_antisymm (hcalc _) this
    · exact hex

/-- C10, at a concrete input: the sample cheat sheet, measured by counting
characters. -/
theorem RenderCheatSheet_width_witness :
    (RenderCheatSheet sampleCalcTextSize sampleStyle 600 sampleCheatSheet).filterMap Widget.text?
      = ["W: Cycle animation [none]", "H: Cheat sheet", "5: Toggle projection [ON]"] := by
  rw [(RenderCheatSheet_width sampleCalcTextSize sampleStyle 600 sampleCheatSheet
    (fun s => by simp [sampleCalcTextSize])).2.1]
  decide

end F3D
